import Mathlib

/-!
Verification of the BLE health-monitor core of the repository
(`HealthGuardPro/bluetooth_service.py`).

The Python source is shallow-embedded below.  Byte strings are `List ℕ`
(each entry a byte value), Python `int` is `ℤ`/`ℕ`, and the arithmetic the
decoders perform on Python floats is idealised to exact rational arithmetic
(`ℚ`); `round(x, 1)` is modelled as exact round-half-to-even at one decimal.
Python exceptions raised by the decoders (only `IndexError` is reachable)
are modelled with `Except PyErr`.
-/

set_option maxHeartbeats 1000000
set_option maxRecDepth 100000

namespace HealthGuard

/-- The only exception the embedded decoder code can raise: Python's
`IndexError` from indexing past the end of a byte string. -/
inductive PyErr where
  | indexError
deriving DecidableEq

/-- Python `data[i]` for a non-negative index `i`: the byte at `i`, or
`IndexError` when `i` is out of range. -/
def pyIndex (data : List ℕ) (i : ℕ) : Except PyErr ℕ :=
  match data.get? i with
  | some b => .ok b
  | none => .error .indexError

/-- Python slice `data[a:b]` for `0 ≤ a ≤ b`: clamps to the available bytes
and never raises. -/
def pySlice (data : List ℕ) (a b : ℕ) : List ℕ :=
  (data.take b).drop a

/-- Python `x & (2^k - 1)` on an arbitrary (two's-complement) integer:
equals `x mod 2^k`, always non-negative. -/
def pyMask (x : ℤ) (k : ℕ) : ℤ :=
  x % (2 ^ k)

/-- Python arithmetic right shift `x >> k`: floor division by `2^k`. -/
def pyShr (x : ℤ) (k : ℕ) : ℤ :=
  x.fdiv (2 ^ k)

/-- Python truthiness of `x & 2^k` on an arbitrary integer: true exactly when
bit `k` of the two's-complement representation of `x` is set, i.e. when
`(x mod 2^(k+1)) div 2^k = 1`. -/
def pyTestBit (x : ℤ) (k : ℕ) : Bool :=
  decide ((pyMask x (k + 1)).fdiv (2 ^ k) = 1)

/-- Python `int.from_bytes(data, byteorder='little')` (unsigned). -/
def int_from_bytes_le : List ℕ → ℕ
  | [] => 0
  | b :: rest => b + 256 * int_from_bytes_le rest

/-- Python `int.from_bytes(data, byteorder='little', signed=True)`:
the unsigned value, shifted down by `2^(8·len)` when the top bit is set. -/
def int_from_bytes_le_signed (data : List ℕ) : ℤ :=
  let u := int_from_bytes_le data
  if 2 * u < 2 ^ (8 * data.length) then (u : ℤ) else (u : ℤ) - 2 ^ (8 * data.length)

/-- Round a rational to the nearest integer, ties to even
(the rounding Python's `round` uses). -/
def roundHalfEven (x : ℚ) : ℤ :=
  let f := x.floor
  let r := x - f
  if r < 1 / 2 then f
  else if 1 / 2 < r then f + 1
  else if f % 2 = 0 then f else f + 1

/-- Python `round(x, 1)`, idealised to exact decimal arithmetic. -/
def pyRound1 (x : ℚ) : ℚ :=
  ((roundHalfEven (10 * x) : ℤ) : ℚ) / 10

/-- Python `int(x)` on a number: truncation toward zero. -/
def truncQ (q : ℚ) : ℤ :=
  if 0 ≤ q then q.floor else q.ceil

/-- Decidable equality of decoder results. -/
instance {ε α : Type} [DecidableEq ε] [DecidableEq α] : DecidableEq (Except ε α) :=
  fun a b =>
    match a, b with
    | .ok x, .ok y =>
      if h : x = y then isTrue (by rw [h]) else isFalse (by simp [h])
    | .error x, .error y =>
      if h : x = y then isTrue (by rw [h]) else isFalse (by simp [h])
    | .ok _, .error _ => isFalse (by simp)
    | .error _, .ok _ => isFalse (by simp)

/-! ### The characteristic decoders (`bluetooth_service.py`, lines 190-260) -/

/-- `_parse_heart_rate` (lines 190-199):
`flags = data[0]`; if `flags & 0x01` then the 16-bit little-endian value of
`data[1:3]`, else `data[1]`. -/
def _parse_heart_rate (data : List ℕ) : Except PyErr ℕ :=
  match pyIndex data 0 with
  | .error e => .error e
  | .ok flags =>
    if flags % 2 = 1 then
      .ok (int_from_bytes_le (pySlice data 1 3))
    else
      match pyIndex data 1 with
      | .error e => .error e
      | .ok b => .ok b

/-- `_parse_sfloat` (lines 248-260): IEEE-11073 16-bit SFLOAT.
`value = int.from_bytes(data, 'little', signed=True)`;
`mantissa = value & 0x0FFF`, corrected by `-(0x1000 - mantissa)` when bit 11
is set; `exponent = (value >> 12) & 0x0F`, corrected by `-(0x10 - exponent)`
when bit 3 is set; result `mantissa * 10 ** exponent`. -/
def _parse_sfloat (data : List ℕ) : ℚ :=
  let value := int_from_bytes_le_signed data
  let mantissa0 := pyMask value 12
  let mantissa : ℤ := if pyTestBit mantissa0 11 then -(0x1000 - mantissa0) else mantissa0
  let exponent0 := pyMask (pyShr value 12) 4
  let exponent : ℤ := if pyTestBit exponent0 3 then -(0x10 - exponent0) else exponent0
  (mantissa : ℚ) * (10 : ℚ) ^ exponent

/-- `_parse_blood_pressure` (lines 231-239): reads `data[0]` as flags, then
decodes `data[1:3]` and `data[3:5]` as SFLOATs and truncates each with
Python `int(...)`. -/
def _parse_blood_pressure (data : List ℕ) : Except PyErr (ℤ × ℤ) :=
  match pyIndex data 0 with
  | .error e => .error e
  | .ok _flags =>
    let systolic := _parse_sfloat (pySlice data 1 3)
    let diastolic := _parse_sfloat (pySlice data 3 5)
    .ok (truncQ systolic, truncQ diastolic)

/-- `_parse_oxygen` (lines 241-246): reads `data[0]` as flags, then
`spo2 = data[1] if len(data) > 1 else 0`. -/
def _parse_oxygen (data : List ℕ) : Except PyErr ℕ :=
  match pyIndex data 0 with
  | .error e => .error e
  | .ok _flags =>
    if 1 < data.length then
      match pyIndex data 1 with
      | .error e => .error e
      | .ok b => .ok b
    else
      .ok 0

/-- `_parse_temperature` (lines 201-229): reads `data[0]` as flags, takes
`temp_int = int.from_bytes(data[1:5], 'little', signed=True)`, extracts
`mantissa = temp_int & 0x00FFFFFF` (sign-corrected on bit 23) and
`exponent = temp_int >> 24` (sign-corrected on bit 7 by `-(0x100 - exponent)`),
forms `mantissa * 10 ** exponent` Celsius, and returns it rounded when flags
bit 0 is set, else converts `* 9/5 + 32` and rounds. -/
def _parse_temperature (data : List ℕ) : Except PyErr ℚ :=
  match pyIndex data 0 with
  | .error e => .error e
  | .ok flags =>
    let temp_bytes := pySlice data 1 5
    let temp_int := int_from_bytes_le_signed temp_bytes
    let mantissa0 := pyMask temp_int 24
    let mantissa : ℤ := if pyTestBit mantissa0 23 then -(0x1000000 - mantissa0) else mantissa0
    let exponent0 := pyShr temp_int 24
    let exponent : ℤ := if pyTestBit exponent0 7 then -(0x100 - exponent0) else exponent0
    let temp_celsius : ℚ := (mantissa : ℚ) * (10 : ℚ) ^ exponent
    if flags % 2 = 1 then
      .ok (pyRound1 temp_celsius)
    else
      .ok (pyRound1 (temp_celsius * 9 / 5 + 32))

/-! ### The device scanner (`scan_devices`, lines 41-57) -/

/-- A BLE advertisement as produced by the host adapter
(`BleakScanner.discover`): address, optional name, signal strength. -/
structure BLEDevice where
  address : String
  name : Option (List Char)
  rssi : ℤ
deriving DecidableEq

/-- An entry of the list `scan_devices` returns. -/
structure HealthDevice where
  address : String
  name : List Char
  rssi : ℤ
deriving DecidableEq

/-- The fixed keyword set of `scan_devices` (line 50). -/
def keywords : List (List Char) :=
  ["health".data, "heart".data, "fitbit".data, "garmin".data, "polar".data,
   "watch".data, "band".data, "mi".data, "huawei".data]

/-- Whether `n` starts with `p` (character-by-character). -/
def isPrefixChars : List Char → List Char → Bool
  | [], _ => true
  | _ :: _, [] => false
  | c :: cs, d :: ds => c == d && isPrefixChars cs ds

/-- Python substring test `needle in hay`. -/
def containsSubstr (needle : List Char) : List Char → Bool
  | [] => needle.isEmpty
  | c :: rest => isPrefixChars needle (c :: rest) || containsSubstr needle rest

/-- The filter condition of line 49-50:
`any(keyword in device.name.lower() for keyword in [...])`. -/
def nameMatches (n : List Char) : Bool :=
  keywords.any (fun k => containsSubstr k (n.map Char.toLower))

/-- The body of the `for` loop of `scan_devices` (lines 47-55) for one
advertisement: `if device.name and any(...)` (Python truthiness: the name
must be present and non-empty), appending
`{'address': ..., 'name': device.name or 'Unknown', 'rssi': ...}`. -/
def scanFilter (d : BLEDevice) : Option HealthDevice :=
  match d.name with
  | none => none
  | some n =>
    if n.isEmpty then none
    else if nameMatches n then
      some { address := d.address
             name := if n.isEmpty then "Unknown".data else n
             rssi := d.rssi }
    else none

/-- `scan_devices` (lines 41-57), with the advertisements the adapter
discovered passed in as input: keeps, in discovery order, the matching
devices. -/
def scan_devices (devices : List BLEDevice) : List HealthDevice :=
  devices.filterMap scanFilter

/-- The claim's reading of the scan filter (for comparison with
`scanFilter`): keep exactly the advertisements whose name is present and
contains a keyword case-insensitively. -/
def claimFilter (d : BLEDevice) : Option HealthDevice :=
  match d.name with
  | none => none
  | some n =>
    if nameMatches n then some { address := d.address, name := n, rssi := d.rssi }
    else none

/-! ### The vitals store and notification handling (lines 26-39, 123-178, 262-273) -/

/-- The `health_data` dictionary of `BluetoothHealthMonitor.__init__`
(lines 32-39): each vital independently optional, `none` = never decoded. -/
structure HealthData where
  heart_rate : Option ℕ
  temperature : Option ℚ
  blood_pressure_systolic : Option ℤ
  blood_pressure_diastolic : Option ℤ
  oxygen_saturation : Option ℕ
  battery_level : Option ℕ
deriving DecidableEq

/-- The initial `health_data` (all `None`). -/
def initHealthData : HealthData :=
  { heart_rate := none, temperature := none, blood_pressure_systolic := none,
    blood_pressure_diastolic := none, oxygen_saturation := none, battery_level := none }

/-- One incoming characteristic notification: which service it is tagged
with, and its raw payload. -/
inductive Notification where
  | heartRate (payload : List ℕ)
  | temperature (payload : List ℕ)
  | bloodPressure (payload : List ℕ)
  | oxygen (payload : List ℕ)
deriving DecidableEq

/-- The effect of one notification on `health_data`, mirroring the handlers
`heart_rate_handler` (lines 126-130), `temperature_handler` (140-144),
`bp_handler` (154-159) and `oxygen_handler` (169-173): on a successful
decode the targeted field(s) are assigned; an exception raised by the
decoder propagates out of the handler before any assignment, leaving the
dictionary unchanged. -/
def handleNotification (hd : HealthData) (n : Notification) : HealthData :=
  match n with
  | .heartRate p =>
    match _parse_heart_rate p with
    | .ok v => { hd with heart_rate := some v }
    | .error _ => hd
  | .temperature p =>
    match _parse_temperature p with
    | .ok v => { hd with temperature := some v }
    | .error _ => hd
  | .bloodPressure p =>
    match _parse_blood_pressure p with
    | .ok v => { hd with blood_pressure_systolic := some v.1,
                         blood_pressure_diastolic := some v.2 }
    | .error _ => hd
  | .oxygen p =>
    match _parse_oxygen p with
    | .ok v => { hd with oxygen_saturation := some v }
    | .error _ => hd

/-- A handed-out Python dictionary: either an alias of the live
`self.health_data` dict, or a detached copy taken at hand-out time.
Reading through an alias always sees the store's current contents; reading
a copy sees the contents at copy time. -/
inductive DictRef where
  | live
  | copied (contents : HealthData)
deriving DecidableEq

/-- Read a handed-out dictionary given the store's current contents. -/
def derefDict (current : HealthData) : DictRef → HealthData
  | .live => current
  | .copied c => c

/-- `get_current_data` (lines 271-273): `return self.health_data.copy()` —
a detached copy, not the live reference. -/
def get_current_data (store : HealthData) : DictRef :=
  .copied store

/-- The argument `_notify_data_update` (lines 262-265) passes to the consumer
callback: `self.health_data.copy()` — a detached copy. -/
def _notify_data_update_arg (store : HealthData) : DictRef :=
  .copied store

/-- Overlay a decode result on an accumulated value: a successful decode
replaces it, a failed one keeps it. -/
def overlay {α : Type} (new old : Option α) : Option α :=
  match new with
  | some v => some v
  | none => old

/-- Fold a notification trace into the last successfully decoded value for
one field, starting from `acc` (the specification-side "most recent
successful decode" function). -/
def lastFrom {α : Type} (pick : Notification → Option α) (ns : List Notification)
    (acc : Option α) : Option α :=
  ns.foldl (fun a n => overlay (pick n) a) acc

/-- Successful heart-rate decode of a notification, if it is one. -/
def pickHeartRate : Notification → Option ℕ
  | .heartRate p => (_parse_heart_rate p).toOption
  | _ => none

/-- Successful temperature decode of a notification, if it is one. -/
def pickTemperature : Notification → Option ℚ
  | .temperature p => (_parse_temperature p).toOption
  | _ => none

/-- Successful systolic decode of a notification, if it is a blood-pressure one. -/
def pickSystolic : Notification → Option ℤ
  | .bloodPressure p => (_parse_blood_pressure p).toOption.map Prod.fst
  | _ => none

/-- Successful diastolic decode of a notification, if it is a blood-pressure one. -/
def pickDiastolic : Notification → Option ℤ
  | .bloodPressure p => (_parse_blood_pressure p).toOption.map Prod.snd
  | _ => none

/-- Successful oxygen decode of a notification, if it is one. -/
def pickOxygen : Notification → Option ℕ
  | .oxygen p => (_parse_oxygen p).toOption
  | _ => none

/-! ### The monitor's connection state (lines 26-31, 87-92) -/

/-- The monitor state touched by `connect`/`disconnect`: the `BleakClient`
handle (present or `None`), the optional address and name, the
`is_connected` flag and the vitals dictionary.  (The consumer callback and
the host adapter itself are external and carry no state we track.) -/
structure Monitor where
  client : Option Unit
  device_address : Option (List Char)
  device_name : Option (List Char)
  is_connected : Bool
  health_data : HealthData
deriving DecidableEq

/-- `BluetoothHealthMonitor.__init__` (lines 26-39). -/
def initMonitor : Monitor :=
  { client := none, device_address := none, device_name := none,
    is_connected := false, health_data := initHealthData }

/-- `disconnect` (lines 87-92): `if self.client and self.is_connected:`
tear down the adapter link (external effect) and clear `is_connected`;
otherwise do nothing.  The adapter's own `disconnect` is assumed to return
normally, as the spec scopes adapter behaviour out. -/
def disconnect (m : Monitor) : Monitor :=
  if m.client.isSome && m.is_connected then { m with is_connected := false } else m

/-! ### Specification-side decoders, written from the claims' words -/

/-- The claim's SFLOAT rule (C5): 16-bit little-endian pattern `u`; low 12
bits are a two's-complement mantissa (subtract `2^12` when bit 11 is set),
high 4 bits a two's-complement exponent (subtract `2^4` when bit 3 is set);
value `mantissa * 10 ^ exponent`. -/
def sfloatClaim (b0 b1 : ℕ) : ℚ :=
  let u := b0 + 256 * b1
  let mraw := u % 4096
  let m : ℤ := if 2048 ≤ mraw then (mraw : ℤ) - 4096 else (mraw : ℤ)
  let eraw := u / 4096
  let e : ℤ := if 8 ≤ eraw then (eraw : ℤ) - 16 else (eraw : ℤ)
  (m : ℚ) * (10 : ℚ) ^ e

/-- The claim's temperature rule (C1): bytes 1-4 as a little-endian 32-bit
pattern; low 24 bits a two's-complement mantissa (subtract `2^24` when bit
23 is set), high 8 bits a two's-complement exponent (subtract `2^8` when
bit 7 is set); Celsius value `mantissa * 10 ^ exponent`, returned rounded
to one decimal when flags bit 0 is set, else converted `* 9/5 + 32` and
rounded. -/
def temperatureClaim (data : List ℕ) : Except PyErr ℚ :=
  match pyIndex data 0 with
  | .error e => .error e
  | .ok flags =>
    let u := int_from_bytes_le (pySlice data 1 5)
    let m : ℤ := if 2 ^ 23 ≤ u % 2 ^ 24 then ((u % 2 ^ 24 : ℕ) : ℤ) - 2 ^ 24
                 else ((u % 2 ^ 24 : ℕ) : ℤ)
    let e : ℤ := if 2 ^ 7 ≤ u / 2 ^ 24 then ((u / 2 ^ 24 : ℕ) : ℤ) - 2 ^ 8
                 else ((u / 2 ^ 24 : ℕ) : ℤ)
    let c : ℚ := (m : ℚ) * (10 : ℚ) ^ e
    if flags % 2 = 1 then .ok (pyRound1 c) else .ok (pyRound1 (c * 9 / 5 + 32))

end HealthGuard

namespace HealthGuard

/-! ### Helper lemmas -/

/-- The empty name matches no keyword. -/
lemma nameMatches_nil : nameMatches [] = false := rfl

/-- The scan loop body agrees with the claim's filter: the extra Python
truthiness test on the name and the dead `or 'Unknown'` fallback change
nothing, because an empty name matches no keyword. -/
lemma scanFilter_eq_claimFilter (d : BLEDevice) : scanFilter d = claimFilter d := by
  unfold scanFilter claimFilter
  cases hn : d.name with
  | none => rfl
  | some n =>
    cases n with
    | nil => simp [nameMatches_nil]
    | cons c cs => simp [List.isEmpty]

/-- A non-empty temperature payload always decodes to a value (the slice
`data[1:5]` and `int.from_bytes` tolerate any length). -/
lemma parse_temperature_cons_ok (f : ℕ) (rest : List ℕ) :
    ∃ q, _parse_temperature (f :: rest) = .ok q := by
  unfold _parse_temperature
  simp only [pyIndex, List.get?]
  by_cases hf : f % 2 = 1 <;> simp [hf]

/-- A non-empty blood-pressure payload always decodes to a pair. -/
lemma parse_blood_pressure_cons_ok (f : ℕ) (rest : List ℕ) :
    ∃ s d, _parse_blood_pressure (f :: rest) = .ok (s, d) := by
  unfold _parse_blood_pressure
  simp only [pyIndex, List.get?]
  exact ⟨_, _, rfl⟩

/-! ### C4 — heart-rate decoder -/

/-- C4: for payloads of sufficient length, `_parse_heart_rate` returns
byte 1 when flags bit 0 is clear, and the 16-bit little-endian value of
bytes 1-2 when it is set; in particular `[0x00, 0x64] → 100` and
`[0x01, 0xE8, 0x00] → 232`. -/
theorem heart_rate_decoder_spec (f b1 b2 : ℕ) (rest : List ℕ) :
    (f % 2 = 0 → _parse_heart_rate (f :: b1 :: rest) = .ok b1) ∧
    (f % 2 = 1 → _parse_heart_rate (f :: b1 :: b2 :: rest) = .ok (b1 + 256 * b2)) ∧
    _parse_heart_rate [0x00, 0x64] = .ok 100 ∧
    _parse_heart_rate [0x01, 0xE8, 0x00] = .ok 232 := by
  refine ⟨fun h => ?_, fun h => ?_, rfl, rfl⟩
  · have h1 : ¬ (f % 2 = 1) := by omega
    simp [_parse_heart_rate, pyIndex, List.get?, h1]
  · simp [_parse_heart_rate, pyIndex, List.get?, h, pySlice, int_from_bytes_le]

/-- Witness for `heart_rate_decoder_spec` at concrete inputs. -/
theorem heart_rate_decoder_spec_witness :
    _parse_heart_rate [0, 100] = .ok 100 ∧
    _parse_heart_rate [1, 232, 0] = .ok 232 :=
  ⟨(heart_rate_decoder_spec 0 100 0 []).1 (by decide),
   by simpa using (heart_rate_decoder_spec 1 232 0 []).2.1 (by decide)⟩

/-! ### C10 — oxygen decoder on truncated payloads -/

/-- C10: a 1-byte oxygen payload yields the value 0 (not an error), so a
truncated pulse-oximetry notification is indistinguishable from a measured
saturation of 0%; with at least 2 bytes the decoder returns byte 1
regardless of the flags byte. -/
theorem oxygen_decoder_truncated_payload (b0 b1 : ℕ) (rest : List ℕ) :
    _parse_oxygen [b0] = .ok 0 ∧ _parse_oxygen (b0 :: b1 :: rest) = .ok b1 := by
  constructor
  · rfl
  · simp [_parse_oxygen, pyIndex, List.get?]

/-! ### C2 — short payloads do not fail with a DecodeError -/

/-- C2 counterexample: a 1-byte oxygen payload (shorter than the required
2 bytes) makes `_parse_oxygen` return the value 0, and a 1-byte heart-rate
payload with the 16-bit flag set makes `_parse_heart_rate` return 0 —
contradicting the claim that every short payload fails with `DecodeError`. -/
theorem short_payload_returns_value_counterexample :
    _parse_oxygen [0] = .ok 0 ∧ _parse_heart_rate [1] = .ok 0 :=
  ⟨rfl, rfl⟩

/-- C2 amended: no `DecodeError` exists in the code.  On payloads shorter
than the required length the decoders either raise Python's `IndexError`
(every decoder on the empty payload; the heart-rate decoder on a 1-byte
payload in 8-bit mode) or return a value computed from the truncated
payload (heart rate in 16-bit mode zero-extends the missing bytes; oxygen
returns 0; temperature and blood pressure decode the zero-extended
slice). -/
theorem short_payload_behavior_amended :
    _parse_heart_rate [] = .error .indexError ∧
    _parse_temperature [] = .error .indexError ∧
    _parse_blood_pressure [] = .error .indexError ∧
    _parse_oxygen [] = .error .indexError ∧
    (∀ f, f % 2 = 0 → _parse_heart_rate [f] = .error .indexError) ∧
    (∀ f, f % 2 = 1 → _parse_heart_rate [f] = .ok 0) ∧
    (∀ f b, f % 2 = 1 → _parse_heart_rate [f, b] = .ok b) ∧
    (∀ f, _parse_oxygen [f] = .ok 0) ∧
    (∀ data : List ℕ, data ≠ [] → data.length < 5 →
      ∃ q, _parse_temperature data = .ok q) ∧
    (∀ data : List ℕ, data ≠ [] → data.length < 5 →
      ∃ s d, _parse_blood_pressure data = .ok (s, d)) := by
  refine ⟨rfl, rfl, rfl, rfl, fun f hf => ?_, fun f hf => ?_, fun f b hf => ?_,
    fun f => rfl, fun data hne _ => ?_, fun data hne _ => ?_⟩
  · have h1 : ¬ (f % 2 = 1) := by omega
    simp [_parse_heart_rate, pyIndex, List.get?, h1]
  · simp [_parse_heart_rate, pyIndex, List.get?, hf, pySlice, int_from_bytes_le]
  · simp [_parse_heart_rate, pyIndex, List.get?, hf, pySlice, int_from_bytes_le]
  · match data with
    | f :: rest => exact parse_temperature_cons_ok f rest
  · match data with
    | f :: rest => exact parse_blood_pressure_cons_ok f rest

/-- Witness for `short_payload_behavior_amended` at concrete inputs. -/
theorem short_payload_behavior_amended_witness :
    _parse_heart_rate [2] = .error .indexError ∧
    _parse_heart_rate [1] = .ok 0 ∧
    _parse_heart_rate [1, 7] = .ok 7 ∧
    (∃ q, _parse_temperature [0] = .ok q) ∧
    (∃ s d, _parse_blood_pressure [0] = .ok (s, d)) := by
  obtain ⟨-, -, -, -, h5, h6, h7, -, h9, h10⟩ := short_payload_behavior_amended
  exact ⟨h5 2 (by decide), h6 1 (by decide), h7 1 7 (by decide),
    h9 [0] (by decide) (by decide), h10 [0] (by decide) (by decide)⟩

/-! ### C7 — disconnect is idempotent -/

/-- C7: `disconnect` is idempotent on every monitor state; after it the
connection flag is down unless the (unreachable) state had a connection
flag without a client handle; on the never-connected initial monitor it is
a no-op and the monitor is disconnected. -/
theorem disconnect_idempotent_spec (m : Monitor) :
    disconnect (disconnect m) = disconnect m ∧
    (disconnect m).is_connected = (m.is_connected && m.client.isNone) ∧
    disconnect initMonitor = initMonitor ∧
    initMonitor.is_connected = false := by
  refine ⟨?_, ?_, rfl, rfl⟩ <;>
  · rcases m with ⟨c, a, n, ic, hdta⟩
    cases c <;> cases ic <;> simp [disconnect]

/-! ### C8 — handed-out snapshots are copies -/

/-- C8: both `get_current_data` and the dictionary `_notify_data_update`
passes to the consumer callback are detached copies of the vitals store:
after any later sequence of notification updates, reading the handed-out
dictionary still yields the contents at hand-out time. -/
theorem snapshots_are_copies (store : HealthData) (ns : List Notification) :
    derefDict (ns.foldl handleNotification store) (get_current_data store) = store ∧
    derefDict (ns.foldl handleNotification store) (_notify_data_update_arg store) = store :=
  ⟨rfl, rfl⟩

/-! ### C1 — the temperature decoder mis-handles negative exponents -/

unseal Rat.mul Rat.add Rat.sub Rat.inv in
/-- C1: on the spec's own example payload `[0x00, 0xD4, 0xFE, 0xFF, 0xFF]`
(flags 0, mantissa −300, exponent byte `0xFF` = −1, i.e. −30.0 °C =
−22.0 °F) the code returns 32 °F: parsing the 4 bytes signed makes
`temp_int >> 24` already sign-extended (−1), and the subsequent
`if exponent & 0x80: exponent = -(0x100 - exponent)` correction subtracts
256 a second time, yielding exponent −257 and a near-zero Celsius value. -/
theorem temperature_decoder_negative_exponent_code_bug :
    _parse_temperature [0x00, 0xD4, 0xFE, 0xFF, 0xFF] = .ok 32 ∧
    temperatureClaim [0x00, 0xD4, 0xFE, 0xFF, 0xFF] = .ok (-22) := by
  constructor
  · decide
  · decide

/-! ### C6 — the scanner filter -/

/-- C6: `scan_devices` returns exactly the discovered advertisements whose
name is present and contains a keyword case-insensitively, in discovery
order (the claim's filter), and returns the empty list when nothing
matches. -/
theorem scan_devices_filters_by_keyword (devices : List BLEDevice) :
    scan_devices devices = devices.filterMap claimFilter ∧
    ((∀ d ∈ devices, ∀ n, d.name = some n → nameMatches n = false) →
      scan_devices devices = []) := by
  have hfun : scanFilter = claimFilter := funext scanFilter_eq_claimFilter
  constructor
  · rw [scan_devices, hfun]
  · intro h
    rw [scan_devices, hfun, List.filterMap_eq_nil_iff]
    intro d hd
    unfold claimFilter
    cases hn : d.name with
    | none => rfl
    | some n => simp [h d hd n hn]

/-- Witness for `scan_devices_filters_by_keyword`: an environment with one
non-matching advertisement scans to the empty list. -/
theorem scan_devices_filters_by_keyword_witness :
    scan_devices [{ address := "AA:BB", name := some "toaster".data, rssi := -40 }] = [] :=
  (scan_devices_filters_by_keyword _).2 (by
    intro d hd n hn
    simp only [List.mem_singleton] at hd
    subst hd
    simp only [Option.some.injEq] at hn
    subst hn
    rfl)

end HealthGuard

namespace HealthGuard

/-! ### SFLOAT decoder algebra -/

/-- Bit-11 test on a value in `[0, 4096)`. -/
lemma pyTestBit_bit11 (x : ℤ) (h0 : 0 ≤ x) (h : x < 4096) :
    pyTestBit x 11 = decide (2048 ≤ x) := by
  unfold pyTestBit pyMask
  rw [show (2 : ℤ) ^ (11 + 1) = 4096 by norm_num, show (2 : ℤ) ^ 11 = 2048 by norm_num,
    Int.fdiv_eq_ediv _ (by norm_num : (0 : ℤ) ≤ 2048), decide_eq_decide]
  omega

/-- Bit-3 test on a value in `[0, 16)`. -/
lemma pyTestBit_bit3 (x : ℤ) (h0 : 0 ≤ x) (h : x < 16) :
    pyTestBit x 3 = decide (8 ≤ x) := by
  unfold pyTestBit pyMask
  rw [show (2 : ℤ) ^ (3 + 1) = 16 by norm_num, show (2 : ℤ) ^ 3 = 8 by norm_num,
    Int.fdiv_eq_ediv _ (by norm_num : (0 : ℤ) ≤ 8), decide_eq_decide]
  omega

/-- The 16-bit signed little-endian read of a 2-byte payload. -/
lemma int_from_bytes_le_signed_pair (b0 b1 : ℕ) :
    int_from_bytes_le_signed [b0, b1] =
      (if b0 + 256 * b1 < 32768 then ((b0 + 256 * b1 : ℕ) : ℤ)
       else ((b0 + 256 * b1 : ℕ) : ℤ) - 65536) := by
  have hu : int_from_bytes_le [b0, b1] = b0 + 256 * b1 := by
    simp [int_from_bytes_le]
  unfold int_from_bytes_le_signed
  rw [hu]
  norm_num
  split_ifs <;> omega

/-- `_parse_sfloat` agrees with the claim's SFLOAT rule on every 2-byte
payload: the `& 0x0F` after the shift re-normalises the sign-extended
exponent nibble, so both sign corrections land exactly once. -/
lemma sfloat_eq_claim (b0 b1 : ℕ) (h0 : b0 < 256) (h1 : b1 < 256) :
    _parse_sfloat [b0, b1] = sfloatClaim b0 b1 := by
  have hm0 : pyMask (int_from_bytes_le_signed [b0, b1]) 12 =
      (((b0 + 256 * b1) % 4096 : ℕ) : ℤ) := by
    rw [int_from_bytes_le_signed_pair]
    unfold pyMask
    rw [show (2 : ℤ) ^ 12 = 4096 by norm_num]
    split_ifs <;> omega
  have hsh : pyMask (pyShr (int_from_bytes_le_signed [b0, b1]) 12) 4 =
      (((b0 + 256 * b1) / 4096 : ℕ) : ℤ) := by
    rw [int_from_bytes_le_signed_pair]
    unfold pyShr pyMask
    rw [show (2 : ℤ) ^ 12 = 4096 by norm_num, show (2 : ℤ) ^ 4 = 16 by norm_num,
      Int.fdiv_eq_ediv _ (by norm_num : (0 : ℤ) ≤ 4096)]
    split_ifs <;> omega
  have hmant :
      (if pyTestBit (pyMask (int_from_bytes_le_signed [b0, b1]) 12) 11 = true
        then -(4096 - pyMask (int_from_bytes_le_signed [b0, b1]) 12)
        else pyMask (int_from_bytes_le_signed [b0, b1]) 12)
      = (if 2048 ≤ (b0 + 256 * b1) % 4096
          then (((b0 + 256 * b1) % 4096 : ℕ) : ℤ) - 4096
          else (((b0 + 256 * b1) % 4096 : ℕ) : ℤ)) := by
    rw [hm0, pyTestBit_bit11 (((b0 + 256 * b1) % 4096 : ℕ) : ℤ) (by positivity) (by omega)]
    by_cases hcc : 2048 ≤ (b0 + 256 * b1) % 4096
    · rw [if_pos (decide_eq_true (by exact_mod_cast hcc)), if_pos hcc]
      omega
    · rw [if_neg (by simp only [decide_eq_true_eq]; exact_mod_cast hcc), if_neg hcc]
  have hexp :
      (if pyTestBit (pyMask (pyShr (int_from_bytes_le_signed [b0, b1]) 12) 4) 3 = true
        then -(16 - pyMask (pyShr (int_from_bytes_le_signed [b0, b1]) 12) 4)
        else pyMask (pyShr (int_from_bytes_le_signed [b0, b1]) 12) 4)
      = (if 8 ≤ (b0 + 256 * b1) / 4096
          then (((b0 + 256 * b1) / 4096 : ℕ) : ℤ) - 16
          else (((b0 + 256 * b1) / 4096 : ℕ) : ℤ)) := by
    rw [hsh, pyTestBit_bit3 (((b0 + 256 * b1) / 4096 : ℕ) : ℤ) (by positivity) (by omega)]
    by_cases hcc : 8 ≤ (b0 + 256 * b1) / 4096
    · rw [if_pos (decide_eq_true (by exact_mod_cast hcc)), if_pos hcc]
      omega
    · rw [if_neg (by simp only [decide_eq_true_eq]; exact_mod_cast hcc), if_neg hcc]
  show
    (((if pyTestBit (pyMask (int_from_bytes_le_signed [b0, b1]) 12) 11 = true
        then -(4096 - pyMask (int_from_bytes_le_signed [b0, b1]) 12)
        else pyMask (int_from_bytes_le_signed [b0, b1]) 12) : ℤ) : ℚ) *
      (10 : ℚ) ^
        ((if pyTestBit (pyMask (pyShr (int_from_bytes_le_signed [b0, b1]) 12) 4) 3 = true
          then -(16 - pyMask (pyShr (int_from_bytes_le_signed [b0, b1]) 12) 4)
          else pyMask (pyShr (int_from_bytes_le_signed [b0, b1]) 12) 4) : ℤ) =
    (((if 2048 ≤ (b0 + 256 * b1) % 4096
        then (((b0 + 256 * b1) % 4096 : ℕ) : ℤ) - 4096
        else (((b0 + 256 * b1) % 4096 : ℕ) : ℤ)) : ℤ) : ℚ) *
      (10 : ℚ) ^
        ((if 8 ≤ (b0 + 256 * b1) / 4096
          then (((b0 + 256 * b1) / 4096 : ℕ) : ℤ) - 16
          else (((b0 + 256 * b1) / 4096 : ℕ) : ℤ)) : ℤ)
  rw [hmant, hexp]

/-! ### C5 — the SFLOAT and blood-pressure decoders match the spec -/

unseal Rat.mul Rat.add Rat.sub Rat.inv in
/-- C5: on every 2-byte input `_parse_sfloat` implements exactly the claim's
little-endian 12-bit/4-bit two's-complement rule; `_parse_blood_pressure`
applies it to bytes 1-2 and 3-4 and truncates each value to an integer;
mantissa 120 with exponent 0 decodes to 120 and mantissa −8 with exponent 1
(bytes `[0xF8, 0x1F]`) decodes to −80. -/
theorem sfloat_decoder_matches_spec (b0 b1 : ℕ) (h0 : b0 < 256) (h1 : b1 < 256) :
    _parse_sfloat [b0, b1] = sfloatClaim b0 b1 ∧
    (∀ (f c1 c2 c3 c4 : ℕ) (rest : List ℕ),
      _parse_blood_pressure (f :: c1 :: c2 :: c3 :: c4 :: rest) =
        .ok (truncQ (_parse_sfloat [c1, c2]), truncQ (_parse_sfloat [c3, c4]))) ∧
    _parse_sfloat [120, 0] = 120 ∧
    _parse_sfloat [0xF8, 0x1F] = -80 := by
  refine ⟨sfloat_eq_claim b0 b1 h0 h1, fun f c1 c2 c3 c4 rest => rfl, by decide, by decide⟩

unseal Rat.mul Rat.add Rat.sub Rat.inv in
/-- Witness for `sfloat_decoder_matches_spec` at concrete bytes. -/
theorem sfloat_decoder_matches_spec_witness :
    _parse_sfloat [120, 0] = sfloatClaim 120 0 ∧ _parse_sfloat [120, 0] = 120 := by
  obtain ⟨hA, -, hC, -⟩ := sfloat_decoder_matches_spec 120 0 (by decide) (by decide)
  exact ⟨hA, hC⟩

/-! ### C9 — range of the SFLOAT decoder -/

unseal Rat.mul Rat.add Rat.sub Rat.inv in
/-- C9 counterexample: bytes `[0x00, 0x78]` encode mantissa −2048 with
exponent 7, so the decoded magnitude is `2048 * 10^7`, exceeding the
claimed bound `2047 * 10^7`. -/
theorem sfloat_magnitude_bound_counterexample :
    _parse_sfloat [0x00, 0x78] = -20480000000 ∧
    (2047 * 10 ^ 7 : ℚ) < |_parse_sfloat [0x00, 0x78]| := by
  have h : _parse_sfloat [0x00, 0x78] = -20480000000 := by decide
  refine ⟨h, ?_⟩
  rw [h, abs_of_neg (by norm_num : (-20480000000 : ℚ) < 0)]
  norm_num

/-- C9 amended: every 2-byte SFLOAT decode equals `m * 10^e` with
`m ∈ [−2048, 2047]` and `e ∈ [−8, 7]`, and its magnitude never exceeds
`2048 * 10^7` (the claim's `2047 * 10^7` is off by the most negative
mantissa).  The decoder is a pure function of the payload bytes. -/
theorem sfloat_range_amended (b0 b1 : ℕ) (h0 : b0 < 256) (h1 : b1 < 256) :
    ∃ m e : ℤ, -2048 ≤ m ∧ m ≤ 2047 ∧ -8 ≤ e ∧ e ≤ 7 ∧
      _parse_sfloat [b0, b1] = (m : ℚ) * (10 : ℚ) ^ e ∧
      |_parse_sfloat [b0, b1]| ≤ 2048 * (10 : ℚ) ^ (7 : ℤ) := by
  obtain ⟨m, e, h₁, h₂, h₃, h₄, heq⟩ :
      ∃ m e : ℤ, -2048 ≤ m ∧ m ≤ 2047 ∧ -8 ≤ e ∧ e ≤ 7 ∧
        _parse_sfloat [b0, b1] = (m : ℚ) * (10 : ℚ) ^ e := by
    refine ⟨(if 2048 ≤ (b0 + 256 * b1) % 4096
              then (((b0 + 256 * b1) % 4096 : ℕ) : ℤ) - 4096
              else (((b0 + 256 * b1) % 4096 : ℕ) : ℤ)),
            (if 8 ≤ (b0 + 256 * b1) / 4096
              then (((b0 + 256 * b1) / 4096 : ℕ) : ℤ) - 16
              else (((b0 + 256 * b1) / 4096 : ℕ) : ℤ)), ?_, ?_, ?_, ?_, ?_⟩
    · split_ifs <;> omega
    · split_ifs <;> omega
    · split_ifs <;> omega
    · split_ifs <;> omega
    · rw [sfloat_eq_claim b0 b1 h0 h1]
      rfl
  refine ⟨m, e, h₁, h₂, h₃, h₄, heq, ?_⟩
  rw [heq, abs_mul]
  have hM : |((m : ℤ) : ℚ)| ≤ 2048 := by
    rw [← Int.cast_abs]
    exact_mod_cast abs_le.mpr ⟨by omega, by omega⟩
  have hE : |(10 : ℚ) ^ e| ≤ (10 : ℚ) ^ (7 : ℤ) := by
    rw [abs_of_pos (zpow_pos (by norm_num : (0 : ℚ) < 10) e)]
    exact zpow_le_zpow_right₀ (by norm_num) h₄
  exact mul_le_mul hM hE (abs_nonneg _) (by norm_num)

unseal Rat.mul Rat.add Rat.sub Rat.inv in
/-- Witness for `sfloat_range_amended` at concrete bytes. -/
theorem sfloat_range_amended_witness :
    ∃ m e : ℤ, -2048 ≤ m ∧ m ≤ 2047 ∧ -8 ≤ e ∧ e ≤ 7 ∧
      _parse_sfloat [0, 0] = (m : ℚ) * (10 : ℚ) ^ e ∧
      |_parse_sfloat [0, 0]| ≤ 2048 * (10 : ℚ) ^ (7 : ℤ) :=
  sfloat_range_amended 0 0 (by decide) (by decide)

end HealthGuard

namespace HealthGuard

/-! ### C3 — the store holds the most recent successful decode per field -/

/-- Folding a notification trace commutes with a field projection whenever
one notification's effect on that field is described by `pick`. -/
lemma foldl_lastFrom {α : Type} (pick : Notification → Option α)
    (proj : HealthData → Option α)
    (hstep : ∀ hd n, proj (handleNotification hd n) = overlay (pick n) (proj hd)) :
    ∀ (ns : List Notification) (hd : HealthData),
      proj (ns.foldl handleNotification hd) = lastFrom pick ns (proj hd) := by
  intro ns
  induction ns with
  | nil => intro hd; rfl
  | cons n rest ih =>
    intro hd
    have hfold : (n :: rest).foldl handleNotification hd =
        rest.foldl handleNotification (handleNotification hd n) := rfl
    rw [hfold, ih, hstep]
    rfl

/-- One step of `handleNotification`, seen through the heart-rate field. -/
lemma step_heart_rate (hd : HealthData) (n : Notification) :
    (handleNotification hd n).heart_rate = overlay (pickHeartRate n) hd.heart_rate := by
  cases n with
  | heartRate p => cases h : _parse_heart_rate p <;> simp [handleNotification, pickHeartRate, overlay, Except.toOption, h]
  | temperature p => cases h : _parse_temperature p <;> simp [handleNotification, pickHeartRate, overlay, Except.toOption, h]
  | bloodPressure p => cases h : _parse_blood_pressure p <;> simp [handleNotification, pickHeartRate, overlay, Except.toOption, h]
  | oxygen p => cases h : _parse_oxygen p <;> simp [handleNotification, pickHeartRate, overlay, Except.toOption, h]

/-- One step of `handleNotification`, seen through the temperature field. -/
lemma step_temperature (hd : HealthData) (n : Notification) :
    (handleNotification hd n).temperature = overlay (pickTemperature n) hd.temperature := by
  cases n with
  | heartRate p => cases h : _parse_heart_rate p <;> simp [handleNotification, pickTemperature, overlay, Except.toOption, h]
  | temperature p => cases h : _parse_temperature p <;> simp [handleNotification, pickTemperature, overlay, Except.toOption, h]
  | bloodPressure p => cases h : _parse_blood_pressure p <;> simp [handleNotification, pickTemperature, overlay, Except.toOption, h]
  | oxygen p => cases h : _parse_oxygen p <;> simp [handleNotification, pickTemperature, overlay, Except.toOption, h]

/-- One step of `handleNotification`, seen through the systolic field. -/
lemma step_systolic (hd : HealthData) (n : Notification) :
    (handleNotification hd n).blood_pressure_systolic = overlay (pickSystolic n) hd.blood_pressure_systolic := by
  cases n with
  | heartRate p => cases h : _parse_heart_rate p <;> simp [handleNotification, pickSystolic, overlay, Except.toOption, h]
  | temperature p => cases h : _parse_temperature p <;> simp [handleNotification, pickSystolic, overlay, Except.toOption, h]
  | bloodPressure p => cases h : _parse_blood_pressure p <;> simp [handleNotification, pickSystolic, overlay, Except.toOption, h]
  | oxygen p => cases h : _parse_oxygen p <;> simp [handleNotification, pickSystolic, overlay, Except.toOption, h]

/-- One step of `handleNotification`, seen through the diastolic field. -/
lemma step_diastolic (hd : HealthData) (n : Notification) :
    (handleNotification hd n).blood_pressure_diastolic = overlay (pickDiastolic n) hd.blood_pressure_diastolic := by
  cases n with
  | heartRate p => cases h : _parse_heart_rate p <;> simp [handleNotification, pickDiastolic, overlay, Except.toOption, h]
  | temperature p => cases h : _parse_temperature p <;> simp [handleNotification, pickDiastolic, overlay, Except.toOption, h]
  | bloodPressure p => cases h : _parse_blood_pressure p <;> simp [handleNotification, pickDiastolic, overlay, Except.toOption, h]
  | oxygen p => cases h : _parse_oxygen p <;> simp [handleNotification, pickDiastolic, overlay, Except.toOption, h]

/-- One step of `handleNotification`, seen through the oxygen field. -/
lemma step_oxygen (hd : HealthData) (n : Notification) :
    (handleNotification hd n).oxygen_saturation = overlay (pickOxygen n) hd.oxygen_saturation := by
  cases n with
  | heartRate p => cases h : _parse_heart_rate p <;> simp [handleNotification, pickOxygen, overlay, Except.toOption, h]
  | temperature p => cases h : _parse_temperature p <;> simp [handleNotification, pickOxygen, overlay, Except.toOption, h]
  | bloodPressure p => cases h : _parse_blood_pressure p <;> simp [handleNotification, pickOxygen, overlay, Except.toOption, h]
  | oxygen p => cases h : _parse_oxygen p <;> simp [handleNotification, pickOxygen, overlay, Except.toOption, h]

/-- No notification touches the battery field. -/
lemma step_battery (hd : HealthData) (n : Notification) :
    (handleNotification hd n).battery_level = hd.battery_level := by
  cases n with
  | heartRate p => cases h : _parse_heart_rate p <;> simp [handleNotification, h]
  | temperature p => cases h : _parse_temperature p <;> simp [handleNotification, h]
  | bloodPressure p => cases h : _parse_blood_pressure p <;> simp [handleNotification, h]
  | oxygen p => cases h : _parse_oxygen p <;> simp [handleNotification, h]

/-- The battery field is untouched by any notification trace. -/
lemma foldl_battery (ns : List Notification) (hd : HealthData) :
    (ns.foldl handleNotification hd).battery_level = hd.battery_level := by
  induction ns generalizing hd with
  | nil => rfl
  | cons n rest ih =>
    have hfold : (n :: rest).foldl handleNotification hd =
        rest.foldl handleNotification (handleNotification hd n) := rfl
    rw [hfold, ih, step_battery]

/-- C3: after any interleaving of successful and failing decodes, every
field of the dictionary `get_current_data` returns equals the value of the
most recent successful decode of a notification for that field's service
(`none` when there has been none); a failing decode leaves the state
unchanged. -/
theorem snapshot_reflects_last_successful_decode (ns : List Notification) :
    (derefDict (ns.foldl handleNotification initHealthData)
      (get_current_data (ns.foldl handleNotification initHealthData))).heart_rate =
        lastFrom pickHeartRate ns none ∧
    (derefDict (ns.foldl handleNotification initHealthData)
      (get_current_data (ns.foldl handleNotification initHealthData))).temperature =
        lastFrom pickTemperature ns none ∧
    (derefDict (ns.foldl handleNotification initHealthData)
      (get_current_data (ns.foldl handleNotification initHealthData))).blood_pressure_systolic =
        lastFrom pickSystolic ns none ∧
    (derefDict (ns.foldl handleNotification initHealthData)
      (get_current_data (ns.foldl handleNotification initHealthData))).blood_pressure_diastolic =
        lastFrom pickDiastolic ns none ∧
    (derefDict (ns.foldl handleNotification initHealthData)
      (get_current_data (ns.foldl handleNotification initHealthData))).oxygen_saturation =
        lastFrom pickOxygen ns none ∧
    (derefDict (ns.foldl handleNotification initHealthData)
      (get_current_data (ns.foldl handleNotification initHealthData))).battery_level = none ∧
    (∀ hd p e, _parse_heart_rate p = .error e →
      handleNotification hd (.heartRate p) = hd) ∧
    (∀ hd p e, _parse_temperature p = .error e →
      handleNotification hd (.temperature p) = hd) ∧
    (∀ hd p e, _parse_blood_pressure p = .error e →
      handleNotification hd (.bloodPressure p) = hd) ∧
    (∀ hd p e, _parse_oxygen p = .error e →
      handleNotification hd (.oxygen p) = hd) := by
  refine ⟨foldl_lastFrom pickHeartRate (fun hd => hd.heart_rate) step_heart_rate ns initHealthData,
    foldl_lastFrom pickTemperature (fun hd => hd.temperature) step_temperature ns initHealthData,
    foldl_lastFrom pickSystolic (fun hd => hd.blood_pressure_systolic) step_systolic ns initHealthData,
    foldl_lastFrom pickDiastolic (fun hd => hd.blood_pressure_diastolic) step_diastolic ns initHealthData,
    foldl_lastFrom pickOxygen (fun hd => hd.oxygen_saturation) step_oxygen ns initHealthData,
    ?_, ?_, ?_, ?_, ?_⟩
  · exact foldl_battery ns initHealthData
  · intro hd p e h
    simp [handleNotification, h]
  · intro hd p e h
    simp [handleNotification, h]
  · intro hd p e h
    simp [handleNotification, h]
  · intro hd p e h
    simp [handleNotification, h]

end HealthGuard

namespace HealthGuard

/-- Witness for `snapshot_reflects_last_successful_decode`: each failing
decode (here: empty payloads) leaves the store unchanged. -/
theorem snapshot_reflects_last_successful_decode_witness :
    handleNotification initHealthData (.heartRate []) = initHealthData ∧
    handleNotification initHealthData (.temperature []) = initHealthData ∧
    handleNotification initHealthData (.bloodPressure []) = initHealthData ∧
    handleNotification initHealthData (.oxygen []) = initHealthData := by
  obtain ⟨-, -, -, -, -, -, h1, h2, h3, h4⟩ := snapshot_reflects_last_successful_decode []
  exact ⟨h1 initHealthData [] .indexError rfl, h2 initHealthData [] .indexError rfl,
    h3 initHealthData [] .indexError rfl, h4 initHealthData [] .indexError rfl⟩

end HealthGuard
